import Mathlib

/-!
# Timetable controller

A shallow embedding of `src/lib/server/controllers/timetableController.js`.

The controller talks to two document collections through an object-document
mapper.  A collection is a list of documents in storage order, a lookup by
`_id` is a first-match search, `save` writes the document back over the
stored document with the same `_id`, and a request handler is a function
from the database, the authenticated caller and the request data to an
outcome and the database after the call.

A request body field is any value the JSON body parser can deliver, or
absent.  Stored identifiers are the strings that `toString()` gives for
them; the cast the mapper applies to a value used as an identifier in a
query is a parameter of the handler that queries, and a value it refuses
raises a `CastError`.  An entry keeps the field values as the handler pushed
them; the casts and the validation that the mapper applies to them on `push`
and `save` depend on the schema and are not modelled.
-/

namespace Timetable

/-- Document identifier, in the string form that `toString()` compares. -/
abbrev ObjectId := String

/-- A value of a request body field: `undefined` for a field the body does
not carry, or a JSON value.  A number is given by the value of the double it
parses to (both zeros are `0`), an object or array by its JSON text. -/
inductive JsValue where
  | undefined
  | null
  | bool (b : Bool)
  | number (x : ℚ)
  | string (s : String)
  | object (json : String)
  deriving DecidableEq, Repr

/-- Modelled from the spec: the embedded timetable entry of
`models/Teacher.js` (day, startTime, endTime and a Semester reference),
together with the `_id` the mapper gives every embedded document. -/
structure TimetableEntry where
  _id : ObjectId
  day : JsValue
  startTime : JsValue
  endTime : JsValue
  semester : ObjectId
  deriving DecidableEq, Repr

/-- Modelled from the spec: the Teacher document of `models/Teacher.js`,
an identity, a name and the ordered collection of embedded entries. -/
structure Teacher where
  _id : ObjectId
  name : String
  timetable : List TimetableEntry
  deriving DecidableEq, Repr

/-- Modelled from the spec: the Semester document of `models/Semester.js`,
with one owning teacher reference and the enrolled student references. -/
structure Semester where
  _id : ObjectId
  subjectName : String
  subjectCode : String
  semesterNumber : Nat
  teacher : ObjectId
  students : List ObjectId
  deriving DecidableEq, Repr

/-- The two collections the controller reads and writes. -/
structure Db where
  teachers : List Teacher
  semesters : List Semester
  deriving DecidableEq, Repr

/-- The body of `POST /api/timetable` after destructuring. -/
structure AddBody where
  semesterId : JsValue
  day : JsValue
  startTime : JsValue
  endTime : JsValue
  deriving DecidableEq, Repr

/-- What a handler does with the response.  `json s m t` is
`res.status(s).json(...)` with message `m` and timetable `t` (`s = 200` when
the handler does not set a status); `error s m` is `res.status(s)` followed
by `throw new Error(m)`; `castError` is a `CastError` raised by a query of
the mapper and `typeError` a runtime `TypeError`, both before the handler
set any status. -/
inductive Outcome (α : Type) where
  | json (status : Nat) (message : String) (timetable : α)
  | error (status : Nat) (message : String)
  | castError
  | typeError
  deriving DecidableEq, Repr

/-- The status code the handler put on the response, if it put one. -/
def Outcome.status {α : Type} : Outcome α → Option Nat
  | .json s _ _ => some s
  | .error s _ => some s
  | .castError => none
  | .typeError => none

/-- JavaScript `!x`: true for `undefined`, `null`, `false`, zero and the
empty string, false for every other value. -/
def isFalsy : JsValue → Bool
  | .undefined => true
  | .null => true
  | .bool b => !b
  | .number x => x == 0
  | .string s => s == ""
  | .object _ => false

/-- The call `Teacher.findById(id)` on the identifier of the authenticated
user: the stored teacher with that `_id`. -/
def Teacher.findById (db : Db) (id : ObjectId) : Option Teacher :=
  db.teachers.find? (fun t => t._id == id)

/-- The stored semester with a given `_id`. -/
def Semester.byId (db : Db) (id : ObjectId) : Option Semester :=
  db.semesters.find? (fun s => s._id == id)

/-- The call `Semester.findById(id)` on a body value.  `castObjectId` is the
cast of the mapper; when it refuses the value the query raises a `CastError`
(the outer `none`), otherwise the result is the stored semester with the
cast `_id`, or `null`. -/
def Semester.findById (castObjectId : JsValue → Option ObjectId) (db : Db) (id : JsValue) :
    Option (Option Semester) :=
  match castObjectId id with
  | none => none
  | some i => some (Semester.byId db i)

/-- The call `teacher.save()`: write the document over the stored document
with the same `_id`. -/
def saveTeacher : List Teacher → Teacher → List Teacher
  | [], _ => []
  | t :: ts, doc => if t._id == doc._id then doc :: ts else t :: saveTeacher ts doc

/-- The object literal `newEntry` of the add handler, with the `_id` the
mapper assigns to it when it is pushed. -/
def newEntry (body : AddBody) (semester : Semester) (newId : ObjectId) : TimetableEntry :=
  { _id := newId
    day := body.day
    startTime := body.startTime
    endTime := body.endTime
    semester := semester._id }

/-- The call `teacher.timetable.push(entry)`: the entry goes to the end. -/
def push (teacher : Teacher) (entry : TimetableEntry) : Teacher :=
  { teacher with timetable := teacher.timetable ++ [entry] }

/-- The database after `doc.save()` on a teacher document. -/
def save (db : Db) (doc : Teacher) : Db :=
  { db with teachers := saveTeacher db.teachers doc }

/-- Handler of `POST /api/timetable`.  `castObjectId` is the cast of the
mapper and `newId` the identifier it assigns to the pushed entry. -/
def addTimetableEntry (castObjectId : JsValue → Option ObjectId) (db : Db)
    (teacherId : ObjectId) (body : AddBody) (newId : ObjectId) :
    Outcome (List TimetableEntry) × Db :=
  if isFalsy body.semesterId || isFalsy body.day || isFalsy body.startTime
      || isFalsy body.endTime then
    (.error 400 "All fields are required", db)
  else
    match Teacher.findById db teacherId with
    | none => (.error 404 "Teacher not found", db)
    | some teacher =>
      match Semester.findById castObjectId db body.semesterId with
      | none => (.castError, db)
      | some none => (.error 404 "Semester not found", db)
      | some (some semester) =>
        if semester.teacher != teacherId then
          (.error 403 "You are not authorized to add a class for this semester.", db)
        else
          let saved := push teacher (newEntry body semester newId)
          (.json 201 "Timetable entry added successfully" saved.timetable, save db saved)

/-- The call `timetable.id(entryId)`: the first embedded entry with that `_id`. -/
def timetableId (timetable : List TimetableEntry) (entryId : ObjectId) : Option TimetableEntry :=
  timetable.find? (fun e => e._id == entryId)

/-- The call `entry.deleteOne()` on an embedded entry: the mapper pulls from
the parent array every element whose `_id` equals the one of the entry. -/
def deleteOne (timetable : List TimetableEntry) (entry : TimetableEntry) : List TimetableEntry :=
  timetable.filter (fun e => !(e._id == entry._id))

/-- Handler of `DELETE /api/timetable/:entryId`. -/
def deleteTimetableEntry (db : Db) (teacherId : ObjectId) (entryId : ObjectId) :
    Outcome (List TimetableEntry) × Db :=
  match Teacher.findById db teacherId with
  | none => (.error 404 "Teacher not found", db)
  | some teacher =>
    match timetableId teacher.timetable entryId with
    | none => (.error 404 "Timetable entry not found", db)
    | some timetableEntry =>
      let saved : Teacher :=
        { teacher with timetable := deleteOne teacher.timetable timetableEntry }
      (.json 200 "Timetable entry deleted successfully" saved.timetable, save db saved)

/-- One row of the student timetable.  `startTime` and `endTime` are the
instants, in milliseconds since the epoch, that the handler renders with
`toISOString()`. -/
structure StudentRow where
  id : ObjectId
  subject : String
  subjectCode : String
  teacher : String
  startTime : Nat
  endTime : Nat
  deriving DecidableEq, Repr

/-- The query `Semester.find(students: studentId)`: the stored semesters whose
students contain the student, in storage order. -/
def Semester.find (db : Db) (studentId : ObjectId) : List Semester :=
  db.semesters.filter (fun s => s.students.contains studentId)

/-- The `populate` of the `teacher` path: each semester with the teacher
document its reference resolves to, or nothing (`null`) when no such teacher
is stored. -/
def populateTeacher (db : Db) (semesters : List Semester) : List (Semester × Option Teacher) :=
  semesters.map (fun s => (s, Teacher.findById db s.teacher))

/-- JavaScript `!xs` on an array: every array, the empty one too, is truthy. -/
def arrayIsFalsy {α : Type} (_ : List α) : Bool := false

/-- The `semesters.map(...)` of the handler.  `clock k` is the result of the
`k`-th read of the system clock; a row reads it twice, once for `new Date()`
and once for `Date.now()`.  Reading `.name` of a `null` teacher raises a
`TypeError`, which ends the map. -/
def mapRows (clock : Nat → Nat) : Nat → List (Semester × Option Teacher) → Option (List StudentRow)
  | _, [] => some []
  | k, (sem, teacher) :: rest =>
    match teacher with
    | none => none
    | some t =>
      match mapRows clock (k + 2) rest with
      | none => none
      | some rows =>
        some ({ id := sem._id
                subject := sem.subjectName
                subjectCode := sem.subjectCode
                teacher := t.name
                startTime := clock k
                endTime := clock (k + 1) + 60 * 60 * 1000 } :: rows)

/-- Handler of `GET /api/timetable/student`. -/
def getStudentTimetable (db : Db) (studentId : ObjectId) (clock : Nat → Nat) :
    Outcome (List StudentRow) :=
  let semesters := populateTeacher db (Semester.find db studentId)
  if arrayIsFalsy semesters then
    .error 404 "No classes found for this student"
  else
    match mapRows clock 0 semesters with
    | none => .typeError
    | some timetable => .json 200 "Student timetable fetched successfully" timetable

/-! ## Calls in sequence -/

/-- A call of one of the two write handlers, with the authenticated teacher
and the request data. -/
inductive Call where
  | add (teacherId : ObjectId) (body : AddBody) (newId : ObjectId)
  | delete (teacherId : ObjectId) (entryId : ObjectId)
  deriving DecidableEq, Repr

/-- The store after a call. -/
def Call.run (castObjectId : JsValue → Option ObjectId) (db : Db) : Call → Db
  | .add teacherId body newId => (addTimetableEntry castObjectId db teacherId body newId).2
  | .delete teacherId entryId => (deleteTimetableEntry db teacherId entryId).2

/-- The store after a sequence of calls, served one after the other. -/
def runCalls (castObjectId : JsValue → Option ObjectId) (db : Db) (calls : List Call) : Db :=
  calls.foldl (Call.run castObjectId) db

/-! ## Predicates used in the statements -/

/-- A field is present when the body carries a value for it. -/
abbrev isPresent (v : JsValue) : Prop := v ≠ .undefined

/-- A field is present with a value other than `null`, `false`, zero and the
empty string. -/
abbrev isTruthy (v : JsValue) : Prop :=
  v ≠ .undefined ∧ v ≠ .null ∧ v ≠ .bool false ∧ v ≠ .number 0 ∧ v ≠ .string ""

/-- The first check of the add handler passes: each of the four fields is
present with a value other than `null`, `false`, zero and the empty string. -/
abbrev fieldsTruthy (body : AddBody) : Prop :=
  isTruthy body.semesterId ∧ isTruthy body.day ∧ isTruthy body.startTime ∧
    isTruthy body.endTime

/-- The four fields are present, whatever their value. -/
abbrev fieldsPresent (body : AddBody) : Prop :=
  isPresent body.semesterId ∧ isPresent body.day ∧ isPresent body.startTime ∧
    isPresent body.endTime

/-- Every timetable of the store is empty. -/
def emptyTimetables (db : Db) : Prop :=
  ∀ t ∈ db.teachers, t.timetable = []

instance (db : Db) : Decidable (emptyTimetables db) := by
  unfold emptyTimetables; infer_instance

/-- Every entry of every timetable references a stored semester whose teacher
is the teacher holding the entry. -/
def ownsEntries (db : Db) : Prop :=
  ∀ t ∈ db.teachers, ∀ e ∈ t.timetable,
    ∃ s, Semester.byId db e.semester = some s ∧ s.teacher = t._id

/-- The row the handler builds for a semester, its populated teacher and the
two clock reads. -/
def rowOf (sem : Semester) (t : Teacher) (startRead endRead : Nat) : StudentRow :=
  { id := sem._id, subject := sem.subjectName, subjectCode := sem.subjectCode,
    teacher := t.name, startTime := startRead, endTime := endRead + 3600000 }

/-! ## Sample data -/

/-- A hexadecimal digit. -/
def isHexDigit (c : Char) : Bool :=
  c.isDigit || ('a' ≤ c && c ≤ 'f') || ('A' ≤ c && c ≤ 'F')

/-- A cast that takes a string of 24 hexadecimal digits to the identifier it
spells, in lower case, and refuses every other value. -/
def hexObjectId : JsValue → Option ObjectId
  | .string s =>
    if s.length = 24 ∧ s.data.all isHexDigit then some (String.mk (s.data.map Char.toLower))
    else none
  | _ => none

/-- Identifier of teacher Asha. -/
def asha : ObjectId := "64f0000000000000000000a1"

/-- Identifier of teacher Ravi. -/
def ravi : ObjectId := "64f0000000000000000000a2"

/-- An identifier no stored teacher has. -/
def nobody : ObjectId := "64f0000000000000000000a9"

/-- Identifier of the Maths semester. -/
def maths : ObjectId := "64f0000000000000000000b1"

/-- Identifier of the Physics semester. -/
def physics : ObjectId := "64f0000000000000000000b2"

/-- Identifier of the Chemistry semester. -/
def chemistry : ObjectId := "64f0000000000000000000b3"

/-- A well-formed identifier no stored semester has. -/
def history : ObjectId := "64f0000000000000000000b9"

/-- Identifiers of timetable entries. -/
def slot1 : ObjectId := "64f0000000000000000000c1"

/-- Second entry identifier. -/
def slot2 : ObjectId := "64f0000000000000000000c2"

/-- Third entry identifier. -/
def slot3 : ObjectId := "64f0000000000000000000c3"

/-- A Monday class from 09:00 to 10:00 of a semester. -/
def mondayClass (id sem : ObjectId) : TimetableEntry :=
  { _id := id, day := .string "Mon", startTime := .string "09:00", endTime := .string "10:00",
    semester := sem }

/-- The Maths semester, owned by Asha, with student `u1`. -/
def mathsSemester : Semester :=
  { _id := maths, subjectName := "Maths", subjectCode := "MA101", semesterNumber := 1,
    teacher := asha, students := ["u1"] }

/-- The Physics semester, owned by Ravi, with students `u1` and `u2`. -/
def physicsSemester : Semester :=
  { _id := physics, subjectName := "Physics", subjectCode := "PH101", semesterNumber := 1,
    teacher := ravi, students := ["u1", "u2"] }

/-- A store with two teachers and two semesters; Asha owns Maths and has no
class, Ravi owns Physics and has one class on Monday. -/
def sampleDb : Db :=
  { teachers :=
      [ { _id := asha, name := "Asha", timetable := [] },
        { _id := ravi, name := "Ravi", timetable := [mondayClass slot1 physics] } ]
    semesters := [mathsSemester, physicsSemester] }

/-- A store whose two teachers have no class yet. -/
def freshDb : Db :=
  { sampleDb with teachers := [ { _id := asha, name := "Asha", timetable := [] },
                                { _id := ravi, name := "Ravi", timetable := [] } ] }

/-- A store in which the Chemistry semester enrols student `u3` and
references a teacher that is not stored. -/
def danglingDb : Db :=
  { teachers := [ { _id := asha, name := "Asha", timetable := [] } ]
    semesters :=
      [ { _id := chemistry, subjectName := "Chemistry", subjectCode := "CH101",
          semesterNumber := 2, teacher := nobody, students := ["u3"] } ] }

/-- A complete body for a Monday class of the semester spelled `sem`. -/
def mondayBody (sem : String) : AddBody :=
  { semesterId := .string sem, day := .string "Mon", startTime := .string "09:00",
    endTime := .string "10:00" }

/-- A body that carries all four fields, startTime being the number zero. -/
def zeroStartBody (sem : String) : AddBody :=
  { mondayBody sem with startTime := .number 0 }

/-- A body that carries all four fields, day being `false`. -/
def falseDayBody (sem : String) : AddBody :=
  { mondayBody sem with day := .bool false }

/-- A body that carries all four fields, endTime being `null`. -/
def nullEndBody (sem : String) : AddBody :=
  { mondayBody sem with endTime := .null }

/-- A sequence of calls: Asha adds a Maths class, Ravi is refused a Maths
class, Ravi adds a Physics class, Asha deletes her class. -/
def sampleCalls : List Call :=
  [ .add asha (mondayBody maths) slot1, .add ravi (mondayBody maths) slot2,
    .add ravi (mondayBody physics) slot3, .delete asha slot1 ]

/-- A clock that starts at 1000 ms and advances one millisecond per read. -/
def tickingClock (k : Nat) : Nat := 1000 + k

/-! ## Reading the request -/

theorem isFalsy_eq_false_iff (v : JsValue) : isFalsy v = false ↔ isTruthy v := by
  cases v with
  | undefined => simp [isFalsy, isTruthy]
  | null => simp [isFalsy, isTruthy]
  | bool b => cases b <;> simp [isFalsy, isTruthy]
  | number x => simp [isFalsy, isTruthy]
  | string s => simp [isFalsy, isTruthy]
  | object j => simp [isFalsy, isTruthy]

theorem isFalsy_eq_true_iff (v : JsValue) : isFalsy v = true ↔ ¬ isTruthy v := by
  rw [← isFalsy_eq_false_iff]; simp

theorem isFalsy_of_absent {v : JsValue} (h : v = .undefined) : isFalsy v = true := by
  subst h; rfl

/-! ## Lookups and `save` -/

theorem teacher_findById_id {db : Db} {id : ObjectId} {t : Teacher}
    (h : Teacher.findById db id = some t) : t._id = id := by
  have := List.find?_some h
  simpa using this

theorem teacher_findById_mem {db : Db} {id : ObjectId} {t : Teacher}
    (h : Teacher.findById db id = some t) : t ∈ db.teachers :=
  List.mem_of_find?_eq_some h

theorem semester_byId_id {db : Db} {i : ObjectId} {s : Semester}
    (h : Semester.byId db i = some s) : s._id = i := by
  have := List.find?_some h
  simpa using this

/-- A semester found by the query is the stored semester with the cast id. -/
theorem semester_findById_some {castObjectId : JsValue → Option ObjectId} {db : Db}
    {v : JsValue} {s : Semester}
    (h : Semester.findById castObjectId db v = some (some s)) :
    castObjectId v = some s._id ∧ Semester.byId db s._id = some s := by
  unfold Semester.findById at h
  cases hc : castObjectId v with
  | none => rw [hc] at h; cases h
  | some i =>
    rw [hc] at h
    have hs : Semester.byId db i = some s := by simpa using h
    have hid := semester_byId_id hs
    rw [hid]
    exact ⟨rfl, hs⟩

theorem find_saveTeacher (ts : List Teacher) (id : ObjectId) (t doc : Teacher)
    (h : ts.find? (fun t => t._id == id) = some t) (hdoc : doc._id = id) :
    (saveTeacher ts doc).find? (fun t => t._id == id) = some doc := by
  induction ts with
  | nil => simp at h
  | cons a as ih =>
    unfold saveTeacher
    by_cases ha : a._id = id
    · simp [ha, hdoc]
    · have h2 : as.find? (fun t => t._id == id) = some t := by
        simpa [List.find?_cons, ha] using h
      have ha2 : ¬ a._id = doc._id := by rw [hdoc]; exact ha
      simp [ha2, List.find?_cons, ha, ih h2]

theorem teacher_findById_save {db : Db} {id : ObjectId} {t : Teacher} (doc : Teacher)
    (h : Teacher.findById db id = some t) (hdoc : doc._id = id) :
    Teacher.findById (save db doc) id = some doc :=
  find_saveTeacher db.teachers id t doc h hdoc

theorem mem_saveTeacher {ts : List Teacher} {doc x : Teacher} (h : x ∈ saveTeacher ts doc) :
    x ∈ ts ∨ x = doc := by
  induction ts with
  | nil => simp [saveTeacher] at h
  | cons a as ih =>
    unfold saveTeacher at h
    split at h
    · rcases List.mem_cons.1 h with h | h
      · exact Or.inr h
      · exact Or.inl (List.mem_cons_of_mem _ h)
    · rcases List.mem_cons.1 h with h | h
      · exact Or.inl (h ▸ List.mem_cons_self _ _)
      · rcases ih h with h | h
        · exact Or.inl (List.mem_cons_of_mem _ h)
        · exact Or.inr h

/-! ## The add handler, branch by branch -/

theorem addTimetableEntry_of_falsy (castObjectId : JsValue → Option ObjectId) (db : Db)
    (teacherId : ObjectId) (body : AddBody) (newId : ObjectId)
    (h : isFalsy body.semesterId = true ∨ isFalsy body.day = true ∨
      isFalsy body.startTime = true ∨ isFalsy body.endTime = true) :
    addTimetableEntry castObjectId db teacherId body newId =
      (.error 400 "All fields are required", db) := by
  unfold addTimetableEntry
  rw [if_pos]
  simpa [Bool.or_eq_true, or_assoc] using h

theorem addTimetableEntry_of_truthy (castObjectId : JsValue → Option ObjectId) (db : Db)
    (teacherId : ObjectId) (body : AddBody) (newId : ObjectId)
    (h1 : isFalsy body.semesterId = false) (h2 : isFalsy body.day = false)
    (h3 : isFalsy body.startTime = false) (h4 : isFalsy body.endTime = false) :
    addTimetableEntry castObjectId db teacherId body newId =
      match Teacher.findById db teacherId with
      | none => (.error 404 "Teacher not found", db)
      | some teacher =>
        match Semester.findById castObjectId db body.semesterId with
        | none => (.castError, db)
        | some none => (.error 404 "Semester not found", db)
        | some (some semester) =>
          if semester.teacher != teacherId then
            (.error 403 "You are not authorized to add a class for this semester.", db)
          else
            (.json 201 "Timetable entry added successfully"
                (teacher.timetable ++ [newEntry body semester newId]),
              save db (push teacher (newEntry body semester newId))) := by
  unfold addTimetableEntry
  simp [h1, h2, h3, h4, push]

/-- The add handler ends in exactly one of its six branches, each with the
store it leaves behind. -/
theorem addTimetableEntry_cases (castObjectId : JsValue → Option ObjectId) (db : Db)
    (teacherId : ObjectId) (body : AddBody) (newId : ObjectId) :
    (¬ fieldsTruthy body ∧
      addTimetableEntry castObjectId db teacherId body newId =
        (.error 400 "All fields are required", db)) ∨
    (fieldsTruthy body ∧ Teacher.findById db teacherId = none ∧
      addTimetableEntry castObjectId db teacherId body newId =
        (.error 404 "Teacher not found", db)) ∨
    (fieldsTruthy body ∧ (∃ t, Teacher.findById db teacherId = some t) ∧
      Semester.findById castObjectId db body.semesterId = none ∧
      addTimetableEntry castObjectId db teacherId body newId = (.castError, db)) ∨
    (fieldsTruthy body ∧ (∃ t, Teacher.findById db teacherId = some t) ∧
      Semester.findById castObjectId db body.semesterId = some none ∧
      addTimetableEntry castObjectId db teacherId body newId =
        (.error 404 "Semester not found", db)) ∨
    (∃ t s, fieldsTruthy body ∧ Teacher.findById db teacherId = some t ∧
      Semester.findById castObjectId db body.semesterId = some (some s) ∧
      s.teacher ≠ teacherId ∧
      addTimetableEntry castObjectId db teacherId body newId =
        (.error 403 "You are not authorized to add a class for this semester.", db)) ∨
    (∃ t s, fieldsTruthy body ∧ Teacher.findById db teacherId = some t ∧
      Semester.findById castObjectId db body.semesterId = some (some s) ∧
      s.teacher = teacherId ∧
      addTimetableEntry castObjectId db teacherId body newId =
        (.json 201 "Timetable entry added successfully"
            (t.timetable ++ [newEntry body s newId]),
          save db (push t (newEntry body s newId)))) := by
  by_cases hf : fieldsTruthy body
  · obtain ⟨h1, h2, h3, h4⟩ := hf
    have hadd := addTimetableEntry_of_truthy castObjectId db teacherId body newId
      ((isFalsy_eq_false_iff _).2 h1) ((isFalsy_eq_false_iff _).2 h2)
      ((isFalsy_eq_false_iff _).2 h3) ((isFalsy_eq_false_iff _).2 h4)
    cases ht : Teacher.findById db teacherId with
    | none =>
      refine Or.inr (Or.inl ⟨⟨h1, h2, h3, h4⟩, rfl, ?_⟩)
      rw [hadd, ht]
    | some t =>
      cases hs : Semester.findById castObjectId db body.semesterId with
      | none =>
        refine Or.inr (Or.inr (Or.inl ⟨⟨h1, h2, h3, h4⟩, ⟨t, rfl⟩, rfl, ?_⟩))
        rw [hadd, ht, hs]
      | some found =>
        cases found with
        | none =>
          refine Or.inr (Or.inr (Or.inr (Or.inl ⟨⟨h1, h2, h3, h4⟩, ⟨t, rfl⟩, rfl, ?_⟩)))
          rw [hadd, ht, hs]
        | some s =>
          by_cases ho : s.teacher = teacherId
          · refine Or.inr (Or.inr (Or.inr (Or.inr (Or.inr
              ⟨t, s, ⟨h1, h2, h3, h4⟩, rfl, rfl, ho, ?_⟩))))
            rw [hadd, ht, hs]
            simp [ho]
          · refine Or.inr (Or.inr (Or.inr (Or.inr (Or.inl
              ⟨t, s, ⟨h1, h2, h3, h4⟩, rfl, rfl, ho, ?_⟩))))
            rw [hadd, ht, hs]
            simp [ho]
  · refine Or.inl ⟨hf, ?_⟩
    apply addTimetableEntry_of_falsy
    simp only [isFalsy_eq_true_iff]
    by_contra hcon
    apply hf
    simp only [not_or, not_not] at hcon
    exact hcon

theorem addTimetableEntry_created (castObjectId : JsValue → Option ObjectId) (db : Db)
    (teacherId : ObjectId) (body : AddBody) (newId : ObjectId) (teacher : Teacher)
    (semester : Semester)
    (h1 : isTruthy body.semesterId) (h2 : isTruthy body.day)
    (h3 : isTruthy body.startTime) (h4 : isTruthy body.endTime)
    (hteacher : Teacher.findById db teacherId = some teacher)
    (hsemester : Semester.findById castObjectId db body.semesterId = some (some semester))
    (howner : semester.teacher = teacherId) :
    addTimetableEntry castObjectId db teacherId body newId =
      (.json 201 "Timetable entry added successfully"
          (teacher.timetable ++ [newEntry body semester newId]),
        save db (push teacher (newEntry body semester newId))) := by
  rw [addTimetableEntry_of_truthy castObjectId db teacherId body newId
    ((isFalsy_eq_false_iff _).2 h1) ((isFalsy_eq_false_iff _).2 h2)
    ((isFalsy_eq_false_iff _).2 h3) ((isFalsy_eq_false_iff _).2 h4)]
  simp [hteacher, hsemester, howner]

/-! ## Adding an entry -/

/-- C1 (as stated, refuted): Asha asks for a class of her own Maths semester
with a body that carries all four fields; her Teacher record and the semester
exist and the semester is hers, yet startTime is the number zero, so the
handler answers 400 and no entry is appended. -/
theorem addTimetableEntry_present_not_created :
    fieldsPresent (zeroStartBody maths) ∧
    Teacher.findById sampleDb asha = some ⟨asha, "Asha", []⟩ ∧
    Semester.findById hexObjectId sampleDb (zeroStartBody maths).semesterId =
      some (some mathsSemester) ∧
    mathsSemester.teacher = asha ∧
    (addTimetableEntry hexObjectId sampleDb asha (zeroStartBody maths) slot2).1 =
      .error 400 "All fields are required" ∧
    (addTimetableEntry hexObjectId sampleDb asha (zeroStartBody maths) slot2).1.status ≠
      some 201 := by
  decide

/-- C1 (amended): when each of the four fields is present with a value other
than null, false, zero and the empty string, the caller is a stored teacher,
and the semester named by semesterId is stored and owned by the caller, the
handler answers 201 with the prior timetable followed by exactly one new
entry, whose day, startTime and endTime are the submitted values and whose
semester is the identifier semesterId casts to; the length grows by one, the
saved document carries that timetable, and nothing is asked of the entries
already there. -/
theorem addTimetableEntry_appends (castObjectId : JsValue → Option ObjectId) (db : Db)
    (teacherId : ObjectId) (body : AddBody) (newId : ObjectId) (teacher : Teacher)
    (semester : Semester)
    (hsemesterId : isTruthy body.semesterId) (hday : isTruthy body.day)
    (hstartTime : isTruthy body.startTime) (hendTime : isTruthy body.endTime)
    (hteacher : Teacher.findById db teacherId = some teacher)
    (hsemester : Semester.findById castObjectId db body.semesterId = some (some semester))
    (howner : semester.teacher = teacherId) :
    ∃ entry : TimetableEntry,
      (addTimetableEntry castObjectId db teacherId body newId).1 =
        .json 201 "Timetable entry added successfully" (teacher.timetable ++ [entry]) ∧
      (teacher.timetable ++ [entry]).length = teacher.timetable.length + 1 ∧
      entry.day = body.day ∧ entry.startTime = body.startTime ∧
      entry.endTime = body.endTime ∧ castObjectId body.semesterId = some entry.semester ∧
      (Teacher.findById (addTimetableEntry castObjectId db teacherId body newId).2
        teacherId).map (fun t => t.timetable) = some (teacher.timetable ++ [entry]) := by
  refine ⟨newEntry body semester newId, ?_⟩
  rw [addTimetableEntry_created castObjectId db teacherId body newId teacher semester
    hsemesterId hday hstartTime hendTime hteacher hsemester howner]
  refine ⟨rfl, by simp, rfl, rfl, rfl, (semester_findById_some hsemester).1, ?_⟩
  have hid : (push teacher (newEntry body semester newId))._id = teacherId := by
    have := teacher_findById_id hteacher
    simpa [push] using this
  rw [teacher_findById_save _ hteacher hid]
  rfl

/-- C1 witness: Ravi already has a Monday 09:00 to 10:00 Physics class and
adds the same class again. -/
theorem addTimetableEntry_appends_witness :
    ∃ entry : TimetableEntry,
      (addTimetableEntry hexObjectId sampleDb ravi (mondayBody physics) slot2).1 =
        .json 201 "Timetable entry added successfully"
          ([mondayClass slot1 physics] ++ [entry]) ∧
      ([mondayClass slot1 physics] ++ [entry]).length =
        [mondayClass slot1 physics].length + 1 ∧
      entry.day = (mondayBody physics).day ∧ entry.startTime = (mondayBody physics).startTime ∧
      entry.endTime = (mondayBody physics).endTime ∧
      hexObjectId (mondayBody physics).semesterId = some entry.semester ∧
      (Teacher.findById (addTimetableEntry hexObjectId sampleDb ravi (mondayBody physics)
        slot2).2 ravi).map (fun t => t.timetable) =
        some ([mondayClass slot1 physics] ++ [entry]) :=
  addTimetableEntry_appends hexObjectId sampleDb ravi (mondayBody physics) slot2
    ⟨ravi, "Ravi", [mondayClass slot1 physics]⟩ physicsSemester
    (by decide) (by decide) (by decide) (by decide) (by decide) (by decide) (by decide)

/-- C3 (as stated, refuted): Asha is a stored teacher, the Physics semester is
stored and owned by Ravi, the request names it and carries day, startTime and
endTime, yet day is `false` and the handler answers 400, not 403. -/
theorem addTimetableEntry_foreign_not_forbidden :
    Teacher.findById sampleDb asha = some ⟨asha, "Asha", []⟩ ∧
    Semester.findById hexObjectId sampleDb (falseDayBody physics).semesterId =
      some (some physicsSemester) ∧
    physicsSemester.teacher ≠ asha ∧
    (isPresent (falseDayBody physics).day ∧ isPresent (falseDayBody physics).startTime ∧
      isPresent (falseDayBody physics).endTime) ∧
    (addTimetableEntry hexObjectId sampleDb asha (falseDayBody physics) slot2).1 =
      .error 400 "All fields are required" ∧
    (addTimetableEntry hexObjectId sampleDb asha (falseDayBody physics) slot2).1.status ≠
      some 403 := by
  decide

/-- C3 (amended): for a stored teacher and a stored semester owned by someone
else, an add request by that teacher naming that semester, each of the four
fields being present with a value other than null, false, zero and the empty
string, fails with status 403 and the not-authorized message, and the store
is left as it was. -/
theorem addTimetableEntry_forbidden (castObjectId : JsValue → Option ObjectId) (db : Db)
    (teacherId : ObjectId) (body : AddBody) (newId : ObjectId) (teacher : Teacher)
    (semester : Semester)
    (hteacher : Teacher.findById db teacherId = some teacher)
    (hsemester : Semester.findById castObjectId db body.semesterId = some (some semester))
    (hsemesterId : isTruthy body.semesterId) (hday : isTruthy body.day)
    (hstartTime : isTruthy body.startTime) (hendTime : isTruthy body.endTime)
    (howner : semester.teacher ≠ teacherId) :
    addTimetableEntry castObjectId db teacherId body newId =
      (.error 403 "You are not authorized to add a class for this semester.", db) := by
  rw [addTimetableEntry_of_truthy castObjectId db teacherId body newId
    ((isFalsy_eq_false_iff _).2 hsemesterId) ((isFalsy_eq_false_iff _).2 hday)
    ((isFalsy_eq_false_iff _).2 hstartTime) ((isFalsy_eq_false_iff _).2 hendTime)]
  simp [hteacher, hsemester, howner]

/-- C3 witness: Asha asks for a class of the Physics semester, owned by Ravi. -/
theorem addTimetableEntry_forbidden_witness :
    addTimetableEntry hexObjectId sampleDb asha (mondayBody physics) slot2 =
      (.error 403 "You are not authorized to add a class for this semester.", sampleDb) :=
  addTimetableEntry_forbidden hexObjectId sampleDb asha (mondayBody physics) slot2
    ⟨asha, "Asha", []⟩ physicsSemester
    (by decide) (by decide) (by decide) (by decide) (by decide) (by decide) (by decide)

/-- C4: whatever the store, the caller and the other fields, a request in
which one of semesterId, day, startTime, endTime is absent fails with status
400 and the message "All fields are required". -/
theorem addTimetableEntry_absent_field (castObjectId : JsValue → Option ObjectId) (db : Db)
    (teacherId : ObjectId) (body : AddBody) (newId : ObjectId)
    (h : body.semesterId = .undefined ∨ body.day = .undefined ∨
      body.startTime = .undefined ∨ body.endTime = .undefined) :
    addTimetableEntry castObjectId db teacherId body newId =
      (.error 400 "All fields are required", db) := by
  apply addTimetableEntry_of_falsy
  rcases h with h | h | h | h
  · exact Or.inl (isFalsy_of_absent h)
  · exact Or.inr (Or.inl (isFalsy_of_absent h))
  · exact Or.inr (Or.inr (Or.inl (isFalsy_of_absent h)))
  · exact Or.inr (Or.inr (Or.inr (isFalsy_of_absent h)))

/-- C4 witness: the owner of the Maths semester sends a body without endTime. -/
theorem addTimetableEntry_absent_field_witness :
    addTimetableEntry hexObjectId sampleDb asha
        ⟨.string maths, .string "Mon", .string "09:00", .undefined⟩ slot2 =
      (.error 400 "All fields are required", sampleDb) :=
  addTimetableEntry_absent_field hexObjectId sampleDb asha
    ⟨.string maths, .string "Mon", .string "09:00", .undefined⟩ slot2
    (Or.inr (Or.inr (Or.inr rfl)))

/-- C7 (as stated, refuted): (1) Asha sends a complete body whose semesterId
is not a well-formed identifier; the query raises a `CastError` and the
handler sets no status, so none of the five stated outcomes occurs; (2) a
caller without Teacher record sends a body that carries all four fields,
endTime being `null`; the stated order gives 404 "Teacher not found" and the
handler answers 400. -/
theorem addTimetableEntry_sixth_outcome :
    (fieldsPresent (mondayBody "xyz") ∧
      (addTimetableEntry hexObjectId sampleDb asha (mondayBody "xyz") slot2).1 = .castError ∧
      (addTimetableEntry hexObjectId sampleDb asha (mondayBody "xyz") slot2).1.status = none ∧
      (addTimetableEntry hexObjectId sampleDb asha (mondayBody "xyz") slot2).1 ≠
        .error 400 "All fields are required" ∧
      (addTimetableEntry hexObjectId sampleDb asha (mondayBody "xyz") slot2).1 ≠
        .error 404 "Teacher not found" ∧
      (addTimetableEntry hexObjectId sampleDb asha (mondayBody "xyz") slot2).1 ≠
        .error 404 "Semester not found" ∧
      (addTimetableEntry hexObjectId sampleDb asha (mondayBody "xyz") slot2).1 ≠
        .error 403 "You are not authorized to add a class for this semester.") ∧
    (fieldsPresent (nullEndBody maths) ∧
      Teacher.findById sampleDb nobody = none ∧
      (addTimetableEntry hexObjectId sampleDb nobody (nullEndBody maths) slot2).1 =
        .error 400 "All fields are required" ∧
      (addTimetableEntry hexObjectId sampleDb nobody (nullEndBody maths) slot2).1 ≠
        .error 404 "Teacher not found") := by
  decide

/-- C7 (amended): the add handler validates in a fixed order and its outcome
is that of the first check that fails: 400 when one of the four fields is
absent, null, false, zero or the empty string; otherwise 404 "Teacher not
found" when the caller has no Teacher record; otherwise a `CastError` with no
status set when semesterId cannot be cast to an identifier; otherwise 404
"Semester not found" when no semester with that identifier is stored;
otherwise 403 when the semester is owned by someone else; otherwise 201.
Exactly one of the six outcomes occurs, and 201 occurs exactly when all
checks pass. -/
theorem addTimetableEntry_validation_order (castObjectId : JsValue → Option ObjectId)
    (db : Db) (teacherId : ObjectId) (body : AddBody) (newId : ObjectId) :
    (¬ fieldsTruthy body →
      (addTimetableEntry castObjectId db teacherId body newId).1 =
        .error 400 "All fields are required") ∧
    (fieldsTruthy body → Teacher.findById db teacherId = none →
      (addTimetableEntry castObjectId db teacherId body newId).1 =
        .error 404 "Teacher not found") ∧
    (fieldsTruthy body → Teacher.findById db teacherId ≠ none →
      castObjectId body.semesterId = none →
      (addTimetableEntry castObjectId db teacherId body newId).1 = .castError) ∧
    (∀ i, fieldsTruthy body → Teacher.findById db teacherId ≠ none →
      castObjectId body.semesterId = some i → Semester.byId db i = none →
      (addTimetableEntry castObjectId db teacherId body newId).1 =
        .error 404 "Semester not found") ∧
    (∀ i s, fieldsTruthy body → Teacher.findById db teacherId ≠ none →
      castObjectId body.semesterId = some i → Semester.byId db i = some s →
      s.teacher ≠ teacherId →
      (addTimetableEntry castObjectId db teacherId body newId).1 =
        .error 403 "You are not authorized to add a class for this semester.") ∧
    (∀ i s, fieldsTruthy body → Teacher.findById db teacherId ≠ none →
      castObjectId body.semesterId = some i → Semester.byId db i = some s →
      s.teacher = teacherId →
      (addTimetableEntry castObjectId db teacherId body newId).1.status = some 201) ∧
    ((addTimetableEntry castObjectId db teacherId body newId).1.status = some 201 ↔
      fieldsTruthy body ∧ Teacher.findById db teacherId ≠ none ∧
        ∃ i s, castObjectId body.semesterId = some i ∧ Semester.byId db i = some s ∧
          s.teacher = teacherId) ∧
    [ decide ((addTimetableEntry castObjectId db teacherId body newId).1 =
        .error 400 "All fields are required"),
      decide ((addTimetableEntry castObjectId db teacherId body newId).1 =
        .error 404 "Teacher not found"),
      decide ((addTimetableEntry castObjectId db teacherId body newId).1 = .castError),
      decide ((addTimetableEntry castObjectId db teacherId body newId).1 =
        .error 404 "Semester not found"),
      decide ((addTimetableEntry castObjectId db teacherId body newId).1 =
        .error 403 "You are not authorized to add a class for this semester."),
      decide ((addTimetableEntry castObjectId db teacherId body newId).1.status = some 201)
    ].count true = 1 := by
  have hfind : ∀ i, castObjectId body.semesterId = some i →
      Semester.findById castObjectId db body.semesterId = some (Semester.byId db i) := by
    intro i hi
    unfold Semester.findById
    rw [hi]
  have hnone : castObjectId body.semesterId = none →
      Semester.findById castObjectId db body.semesterId = none := by
    intro hi
    unfold Semester.findById
    rw [hi]
  rcases addTimetableEntry_cases castObjectId db teacherId body newId with
    ⟨hf, h⟩ | ⟨hf, ht, h⟩ | ⟨hf, ⟨t, ht⟩, hs, h⟩ | ⟨hf, ⟨t, ht⟩, hs, h⟩ |
    ⟨t, s, hf, ht, hs, ho, h⟩ | ⟨t, s, hf, ht, hs, ho, h⟩
  · rw [h]
    refine ⟨fun _ => rfl, fun h1 => absurd h1 hf, fun h1 => absurd h1 hf,
      fun _ h1 => absurd h1 hf, fun _ _ h1 => absurd h1 hf, fun _ _ h1 => absurd h1 hf,
      ?_, ?_⟩
    · constructor
      · intro h1; simp [Outcome.status] at h1
      · intro h1; exact absurd h1.1 hf
    · simp [Outcome.status]
  · rw [h]
    refine ⟨fun h1 => absurd hf h1, fun _ _ => rfl, fun _ h1 => absurd ht h1,
      fun _ _ h1 => absurd ht h1, fun _ _ _ h1 => absurd ht h1,
      fun _ _ _ h1 => absurd ht h1, ?_, ?_⟩
    · constructor
      · intro h1; simp [Outcome.status] at h1
      · intro h1; exact absurd ht h1.2.1
    · simp [Outcome.status]
  · rw [h]
    refine ⟨fun h1 => absurd hf h1, ?_, fun _ _ _ => rfl, ?_, ?_, ?_, ?_, ?_⟩
    · intro _ h1; rw [ht] at h1; cases h1
    · intro i _ _ hi _; rw [hfind i hi] at hs; cases hs
    · intro i s _ _ hi _ _; rw [hfind i hi] at hs; cases hs
    · intro i s _ _ hi _ _; rw [hfind i hi] at hs; cases hs
    · constructor
      · intro h1; simp [Outcome.status] at h1
      · rintro ⟨_, _, i, s, hi, _, _⟩; rw [hfind i hi] at hs; cases hs
    · simp [Outcome.status]
  · rw [h]
    refine ⟨fun h1 => absurd hf h1, ?_, ?_, fun _ _ _ _ _ => rfl, ?_, ?_, ?_, ?_⟩
    · intro _ h1; rw [ht] at h1; cases h1
    · intro _ _ hi; rw [hnone hi] at hs; cases hs
    · intro i s _ _ hi hb _
      rw [hfind i hi, hb] at hs; cases hs
    · intro i s _ _ hi hb _
      rw [hfind i hi, hb] at hs; cases hs
    · constructor
      · intro h1; simp [Outcome.status] at h1
      · rintro ⟨_, _, i, s, hi, hb, _⟩; rw [hfind i hi, hb] at hs; cases hs
    · simp [Outcome.status]
  · rw [h]
    refine ⟨fun h1 => absurd hf h1, ?_, ?_, ?_, fun _ _ _ _ _ _ _ => rfl, ?_, ?_, ?_⟩
    · intro _ h1; rw [ht] at h1; cases h1
    · intro _ _ hi; rw [hnone hi] at hs; cases hs
    · intro i _ _ hi hb
      rw [hfind i hi, hb] at hs; cases hs
    · intro i s2 _ _ hi hb ho2
      rw [hfind i hi, hb] at hs; cases hs; exact absurd ho2 ho
    · constructor
      · intro h1; simp [Outcome.status] at h1
      · rintro ⟨_, _, i, s2, hi, hb, ho2⟩
        rw [hfind i hi, hb] at hs; cases hs; exact absurd ho2 ho
    · simp [Outcome.status]
  · rw [h]
    obtain ⟨hcast, hby⟩ := semester_findById_some hs
    refine ⟨fun h1 => absurd hf h1, ?_, ?_, ?_, ?_, fun _ _ _ _ _ _ _ => rfl, ?_, ?_⟩
    · intro _ h1; rw [ht] at h1; cases h1
    · intro _ _ hi; rw [hnone hi] at hs; cases hs
    · intro i _ _ hi hb
      rw [hfind i hi, hb] at hs; cases hs
    · intro i s2 _ _ hi hb ho2
      rw [hfind i hi, hb] at hs; cases hs; exact absurd ho ho2
    · constructor
      · intro _; exact ⟨hf, by rw [ht]; simp, s._id, s, hcast, hby, ho⟩
      · intro _; rfl
    · simp [Outcome.status]

/-- C7 witness: the six outcomes, each reached on the sample store. -/
theorem addTimetableEntry_validation_order_witness :
    (addTimetableEntry hexObjectId sampleDb asha (zeroStartBody maths) slot2).1 =
      .error 400 "All fields are required" ∧
    (addTimetableEntry hexObjectId sampleDb nobody (mondayBody maths) slot2).1 =
      .error 404 "Teacher not found" ∧
    (addTimetableEntry hexObjectId sampleDb asha (mondayBody "xyz") slot2).1 = .castError ∧
    (addTimetableEntry hexObjectId sampleDb asha (mondayBody history) slot2).1 =
      .error 404 "Semester not found" ∧
    (addTimetableEntry hexObjectId sampleDb asha (mondayBody physics) slot2).1 =
      .error 403 "You are not authorized to add a class for this semester." ∧
    (addTimetableEntry hexObjectId sampleDb asha (mondayBody maths) slot2).1.status =
      some 201 :=
  ⟨(addTimetableEntry_validation_order hexObjectId sampleDb asha (zeroStartBody maths)
      slot2).1 (by decide),
    (addTimetableEntry_validation_order hexObjectId sampleDb nobody (mondayBody maths)
      slot2).2.1 (by decide) (by decide),
    (addTimetableEntry_validation_order hexObjectId sampleDb asha (mondayBody "xyz")
      slot2).2.2.1 (by decide) (by decide) (by decide),
    (addTimetableEntry_validation_order hexObjectId sampleDb asha (mondayBody history)
      slot2).2.2.2.1 history (by decide) (by decide) (by decide) (by decide),
    (addTimetableEntry_validation_order hexObjectId sampleDb asha (mondayBody physics)
      slot2).2.2.2.2.1 physics physicsSemester
      (by decide) (by decide) (by decide) (by decide) (by decide),
    (addTimetableEntry_validation_order hexObjectId sampleDb asha (mondayBody maths)
      slot2).2.2.2.2.2.1 maths mathsSemester
      (by decide) (by decide) (by decide) (by decide) (by decide)⟩

/-- C8: a failing add adds no entry.  When the handler answers 400, 403 or
404 the store after the call is the store before it, so the timetable of the
caller and of every other teacher is what it was. -/
theorem addTimetableEntry_failure_keeps_store (castObjectId : JsValue → Option ObjectId)
    (db : Db) (teacherId : ObjectId) (body : AddBody) (newId : ObjectId)
    (h : (addTimetableEntry castObjectId db teacherId body newId).1.status = some 400 ∨
      (addTimetableEntry castObjectId db teacherId body newId).1.status = some 403 ∨
      (addTimetableEntry castObjectId db teacherId body newId).1.status = some 404) :
    (addTimetableEntry castObjectId db teacherId body newId).2 = db ∧
    ∀ id, (Teacher.findById (addTimetableEntry castObjectId db teacherId body newId).2 id).map
        (fun t => t.timetable) = (Teacher.findById db id).map (fun t => t.timetable) := by
  have hdb : (addTimetableEntry castObjectId db teacherId body newId).2 = db := by
    rcases addTimetableEntry_cases castObjectId db teacherId body newId with
      ⟨_, h1⟩ | ⟨_, _, h1⟩ | ⟨_, _, _, h1⟩ | ⟨_, _, _, h1⟩ | ⟨_, _, _, _, _, _, h1⟩ |
      ⟨_, _, _, _, _, _, h1⟩
    · rw [h1]
    · rw [h1]
    · rw [h1]
    · rw [h1]
    · rw [h1]
    · rw [h1] at h
      simp [Outcome.status] at h
  exact ⟨hdb, fun id => by rw [hdb]⟩

/-- C8 witness: Asha, who does not own the Physics semester, is refused with
403 and the store is unchanged. -/
theorem addTimetableEntry_failure_keeps_store_witness :
    (addTimetableEntry hexObjectId sampleDb asha (mondayBody physics) slot2).1.status =
      some 403 ∧
    (addTimetableEntry hexObjectId sampleDb asha (mondayBody physics) slot2).2 = sampleDb ∧
    ∀ id, (Teacher.findById (addTimetableEntry hexObjectId sampleDb asha (mondayBody physics)
        slot2).2 id).map (fun t => t.timetable) =
      (Teacher.findById sampleDb id).map (fun t => t.timetable) :=
  ⟨by decide,
    addTimetableEntry_failure_keeps_store hexObjectId sampleDb asha (mondayBody physics) slot2
      (Or.inr (Or.inl (by decide)))⟩

/-! ## Deleting an entry -/

theorem deleteTimetableEntry_of_found (db : Db) (teacherId entryId : ObjectId)
    (teacher : Teacher) (entry : TimetableEntry)
    (hteacher : Teacher.findById db teacherId = some teacher)
    (hentry : timetableId teacher.timetable entryId = some entry) :
    deleteTimetableEntry db teacherId entryId =
      (.json 200 "Timetable entry deleted successfully" (deleteOne teacher.timetable entry),
        save db { teacher with timetable := deleteOne teacher.timetable entry }) := by
  unfold deleteTimetableEntry
  simp [hteacher, hentry]

theorem deleteTimetableEntry_of_missing (db : Db) (teacherId entryId : ObjectId)
    (teacher : Teacher)
    (hteacher : Teacher.findById db teacherId = some teacher)
    (hentry : timetableId teacher.timetable entryId = none) :
    deleteTimetableEntry db teacherId entryId = (.error 404 "Timetable entry not found", db) := by
  unfold deleteTimetableEntry
  simp [hteacher, hentry]

theorem timetableId_id {timetable : List TimetableEntry} {entryId : ObjectId}
    {entry : TimetableEntry} (h : timetableId timetable entryId = some entry) :
    entry._id = entryId := by
  have := List.find?_some h
  simpa using this

theorem timetableId_eq_none {timetable : List TimetableEntry} {entryId : ObjectId}
    (h : ∀ e ∈ timetable, e._id ≠ entryId) : timetableId timetable entryId = none := by
  unfold timetableId
  rw [List.find?_eq_none]
  intro x hx
  simpa using h x hx

theorem mem_deleteOne {timetable : List TimetableEntry} {entry x : TimetableEntry} :
    x ∈ deleteOne timetable entry ↔ x ∈ timetable ∧ x._id ≠ entry._id := by
  simp [deleteOne, List.mem_filter]

/-- With unique ids, a timetable splits around the entry of a given id, the
lookup finds that entry, and pulling it leaves the two sides. -/
theorem split_of_unique {timetable : List TimetableEntry} {entryId : ObjectId}
    (hunique : (timetable.map (fun e => e._id)).Nodup)
    (hmem : ∃ e ∈ timetable, e._id = entryId) :
    ∃ before entry after, timetable = before ++ entry :: after ∧ entry._id = entryId ∧
      (∀ x ∈ before ++ after, x._id ≠ entryId) ∧
      timetableId timetable entryId = some entry ∧
      deleteOne timetable entry = before ++ after := by
  obtain ⟨e, he, hid⟩ := hmem
  obtain ⟨before, after, hsplit⟩ := List.append_of_mem he
  subst hsplit
  rw [List.map_append, List.map_cons, List.nodup_append] at hunique
  obtain ⟨_, hright, hdisj⟩ := hunique
  have hbefore : ∀ x ∈ before, x._id ≠ entryId := by
    intro x hx hxe
    exact hdisj (List.mem_map_of_mem _ hx) (by rw [hxe, ← hid]; exact List.mem_cons_self _ _)
  have hafter : ∀ x ∈ after, x._id ≠ entryId := by
    intro x hx hxe
    have := (List.nodup_cons.1 hright).1
    apply this
    rw [hid, ← hxe]
    exact List.mem_map_of_mem _ hx
  refine ⟨before, e, after, rfl, hid, ?_, ?_, ?_⟩
  · intro x hx
    rcases List.mem_append.1 hx with h | h
    · exact hbefore x h
    · exact hafter x h
  · unfold timetableId
    rw [List.find?_append]
    have hnone : List.find? (fun e => e._id == entryId) before = none := by
      rw [List.find?_eq_none]
      intro x hx
      simpa using hbefore x hx
    rw [hnone]
    simp [List.find?_cons, hid]
  · unfold deleteOne
    rw [List.filter_append, List.filter_cons]
    have h1 : List.filter (fun x => !(x._id == e._id)) before = before := by
      rw [List.filter_eq_self]
      intro x hx
      have := hbefore x hx
      rw [← hid] at this
      simpa using this
    have h2 : List.filter (fun x => !(x._id == e._id)) after = after := by
      rw [List.filter_eq_self]
      intro x hx
      have := hafter x hx
      rw [← hid] at this
      simpa using this
    rw [h1, h2]
    simp

/-- C2: for a stored teacher whose timetable has unique entry ids and an
entryId that is the id of one of its entries, the delete handler answers 200
with the prior timetable without that entry: the entries before and after it
in their order, one entry fewer, none with that id; the saved document carries
that timetable. -/
theorem deleteTimetableEntry_removes (db : Db) (teacherId entryId : ObjectId)
    (teacher : Teacher)
    (hteacher : Teacher.findById db teacherId = some teacher)
    (hunique : (teacher.timetable.map (fun e => e._id)).Nodup)
    (hmem : ∃ e ∈ teacher.timetable, e._id = entryId) :
    ∃ before entry after,
      teacher.timetable = before ++ entry :: after ∧ entry._id = entryId ∧
      (deleteTimetableEntry db teacherId entryId).1 =
        .json 200 "Timetable entry deleted successfully" (before ++ after) ∧
      (before ++ after).length = teacher.timetable.length - 1 ∧
      (∀ x ∈ before ++ after, x._id ≠ entryId) ∧
      (Teacher.findById (deleteTimetableEntry db teacherId entryId).2 teacherId).map
        (fun t => t.timetable) = some (before ++ after) := by
  obtain ⟨before, entry, after, hsplit, hid, hnone, hfind, hpull⟩ :=
    split_of_unique hunique hmem
  refine ⟨before, entry, after, hsplit, hid, ?_, ?_, hnone, ?_⟩
  · rw [deleteTimetableEntry_of_found db teacherId entryId teacher entry hteacher hfind, hpull]
  · rw [hsplit]; simp
  · rw [deleteTimetableEntry_of_found db teacherId entryId teacher entry hteacher hfind, hpull]
    have hid2 : ({ teacher with timetable := before ++ after } : Teacher)._id = teacherId := by
      have := teacher_findById_id hteacher
      simpa using this
    rw [teacher_findById_save _ hteacher hid2]
    rfl

/-- C2 witness: Ravi deletes his only entry. -/
theorem deleteTimetableEntry_removes_witness :
    ∃ before entry after,
      [mondayClass slot1 physics] = before ++ entry :: after ∧
      entry._id = slot1 ∧
      (deleteTimetableEntry sampleDb ravi slot1).1 =
        .json 200 "Timetable entry deleted successfully" (before ++ after) ∧
      (before ++ after).length =
        [mondayClass slot1 physics].length - 1 ∧
      (∀ x ∈ before ++ after, x._id ≠ slot1) ∧
      (Teacher.findById (deleteTimetableEntry sampleDb ravi slot1).2 ravi).map
        (fun t => t.timetable) = some (before ++ after) :=
  deleteTimetableEntry_removes sampleDb ravi slot1
    ⟨ravi, "Ravi", [mondayClass slot1 physics]⟩ (by decide) (by decide)
    ⟨mondayClass slot1 physics, by decide, by decide⟩

/-- C5: for a stored teacher and an entryId that is the id of no entry in
that teacher's own timetable, the delete handler fails with status 404 and
"Timetable entry not found" and leaves the store as it was; nothing is asked
of the other teachers, whose timetables may well hold an entry of that id. -/
theorem deleteTimetableEntry_not_found (db : Db) (teacherId entryId : ObjectId)
    (teacher : Teacher)
    (hteacher : Teacher.findById db teacherId = some teacher)
    (hnot : ∀ e ∈ teacher.timetable, e._id ≠ entryId) :
    deleteTimetableEntry db teacherId entryId =
      (.error 404 "Timetable entry not found", db) :=
  deleteTimetableEntry_of_missing db teacherId entryId teacher hteacher
    (timetableId_eq_none hnot)

/-- C5 witness: the entry is in the timetable of Ravi; Asha asks to
delete it and gets 404. -/
theorem deleteTimetableEntry_not_found_witness :
    (∃ other, Teacher.findById sampleDb ravi = some other ∧
      ∃ e ∈ other.timetable, e._id = slot1) ∧
    deleteTimetableEntry sampleDb asha slot1 =
      (.error 404 "Timetable entry not found", sampleDb) :=
  ⟨⟨⟨ravi, "Ravi", [mondayClass slot1 physics]⟩, by decide,
      mondayClass slot1 physics, by decide, by decide⟩,
    deleteTimetableEntry_not_found sampleDb asha slot1 ⟨asha, "Asha", []⟩ (by decide)
      (by decide)⟩

/-- Deleting an entry of a timetable with unique ids succeeds once, and the
same request on the store it leaves finds nothing to delete. -/
theorem deleteTimetableEntry_then_again (db : Db) (teacherId entryId : ObjectId)
    (teacher : Teacher)
    (hteacher : Teacher.findById db teacherId = some teacher)
    (hunique : (teacher.timetable.map (fun e => e._id)).Nodup)
    (hmem : ∃ e ∈ teacher.timetable, e._id = entryId) :
    ∃ rest,
      (deleteTimetableEntry db teacherId entryId).1 =
        .json 200 "Timetable entry deleted successfully" rest ∧
      (∀ x ∈ rest, x._id ≠ entryId) ∧
      rest.length = teacher.timetable.length - 1 ∧
      deleteTimetableEntry (deleteTimetableEntry db teacherId entryId).2 teacherId entryId =
        (.error 404 "Timetable entry not found",
          (deleteTimetableEntry db teacherId entryId).2) ∧
      (Teacher.findById (deleteTimetableEntry db teacherId entryId).2 teacherId).map
        (fun t => t.timetable) = some rest := by
  obtain ⟨before, entry, after, hsplit, hid, hnone, hfind, hpull⟩ :=
    split_of_unique hunique hmem
  have hfirst := deleteTimetableEntry_of_found db teacherId entryId teacher entry hteacher hfind
  rw [hpull] at hfirst
  have hid2 : ({ teacher with timetable := before ++ after } : Teacher)._id = teacherId := by
    have := teacher_findById_id hteacher
    simpa using this
  have hstored := teacher_findById_save
    ({ teacher with timetable := before ++ after } : Teacher) hteacher hid2
  refine ⟨before ++ after, ?_, hnone, ?_, ?_, ?_⟩
  · rw [hfirst]
  · rw [hsplit]; simp
  · rw [hfirst]
    exact deleteTimetableEntry_of_missing _ teacherId entryId _ hstored
      (timetableId_eq_none hnone)
  · rw [hfirst]
    show (Teacher.findById (save db _) teacherId).map (fun t => t.timetable) = _
    rw [hstored]
    rfl

/-- C9: for a stored teacher, (1) when the timetable has unique entry ids and
entryId is the id of one of its entries, the first delete answers 200 with a
timetable that does not contain the id, and the same delete on the resulting
store answers 404 "Timetable entry not found" and leaves that store, hence
the timetable, as the first call left it; (2) the same holds for the entry
created by a successful add of that teacher, the timetable after the add
having unique ids. -/
theorem deleteTimetableEntry_twice (castObjectId : JsValue → Option ObjectId) (db : Db)
    (teacherId : ObjectId) (teacher : Teacher)
    (hteacher : Teacher.findById db teacherId = some teacher) :
    (∀ entryId, (teacher.timetable.map (fun e => e._id)).Nodup →
      (∃ e ∈ teacher.timetable, e._id = entryId) →
      ∃ rest,
        (deleteTimetableEntry db teacherId entryId).1 =
          .json 200 "Timetable entry deleted successfully" rest ∧
        (∀ x ∈ rest, x._id ≠ entryId) ∧
        rest.length = teacher.timetable.length - 1 ∧
        deleteTimetableEntry (deleteTimetableEntry db teacherId entryId).2 teacherId entryId =
          (.error 404 "Timetable entry not found",
            (deleteTimetableEntry db teacherId entryId).2) ∧
        (Teacher.findById (deleteTimetableEntry db teacherId entryId).2 teacherId).map
          (fun t => t.timetable) = some rest) ∧
    (∀ body newId added,
      (addTimetableEntry castObjectId db teacherId body newId).1 =
        .json 201 "Timetable entry added successfully" added →
      (added.map (fun e => e._id)).Nodup →
      (∃ e ∈ added, e._id = newId) ∧
      ∃ rest,
        (deleteTimetableEntry (addTimetableEntry castObjectId db teacherId body newId).2 teacherId newId).1 =
          .json 200 "Timetable entry deleted successfully" rest ∧
        (∀ x ∈ rest, x._id ≠ newId) ∧
        rest.length = added.length - 1 ∧
        deleteTimetableEntry
            (deleteTimetableEntry (addTimetableEntry castObjectId db teacherId body newId).2 teacherId
              newId).2 teacherId newId =
          (.error 404 "Timetable entry not found",
            (deleteTimetableEntry (addTimetableEntry castObjectId db teacherId body newId).2 teacherId
              newId).2) ∧
        (Teacher.findById
            (deleteTimetableEntry (addTimetableEntry castObjectId db teacherId body newId).2 teacherId
              newId).2 teacherId).map (fun t => t.timetable) = some rest) := by
  constructor
  · intro entryId hunique hmem
    exact deleteTimetableEntry_then_again db teacherId entryId teacher hteacher hunique hmem
  · intro body newId added hadd hunique
    rcases addTimetableEntry_cases castObjectId db teacherId body newId with
      ⟨_, h⟩ | ⟨_, _, h⟩ | ⟨_, _, _, h⟩ | ⟨_, _, _, h⟩ | ⟨_, _, _, _, _, _, h⟩ |
      ⟨t, s, _, ht, _, _, h⟩
    · rw [h] at hadd; cases hadd
    · rw [h] at hadd; cases hadd
    · rw [h] at hadd; cases hadd
    · rw [h] at hadd; cases hadd
    · rw [h] at hadd; cases hadd
    · rw [hteacher] at ht
      cases ht
      rw [h] at hadd
      have hadded : teacher.timetable ++ [newEntry body s newId] = added := by
        simpa using hadd
      have hid : (push teacher (newEntry body s newId))._id = teacherId := by
        have := teacher_findById_id hteacher
        simpa [push] using this
      have hstored := teacher_findById_save (push teacher (newEntry body s newId)) hteacher hid
      have hmem : ∃ e ∈ added, e._id = newId :=
        ⟨newEntry body s newId, by rw [← hadded]; simp, rfl⟩
      refine ⟨hmem, ?_⟩
      rw [h]
      have hunique2 : ((push teacher (newEntry body s newId)).timetable.map
          (fun e => e._id)).Nodup := by
        show ((teacher.timetable ++ [newEntry body s newId]).map (fun e => e._id)).Nodup
        rw [hadded]; exact hunique
      have hmem2 : ∃ e ∈ (push teacher (newEntry body s newId)).timetable, e._id = newId := by
        show ∃ e ∈ teacher.timetable ++ [newEntry body s newId], e._id = newId
        rw [hadded]; exact hmem
      have := deleteTimetableEntry_then_again (save db (push teacher (newEntry body s newId)))
        teacherId newId (push teacher (newEntry body s newId)) hstored hunique2 hmem2
      have hlen : (push teacher (newEntry body s newId)).timetable.length = added.length := by
        show (teacher.timetable ++ [newEntry body s newId]).length = added.length
        rw [hadded]
      rw [hlen] at this
      exact this

/-- C9 witness: Ravi deletes his entry twice, and adds a second class and
deletes it twice. -/
theorem deleteTimetableEntry_twice_witness :
    (∃ rest,
      (deleteTimetableEntry sampleDb ravi slot1).1 =
        .json 200 "Timetable entry deleted successfully" rest ∧
      (∀ x ∈ rest, x._id ≠ slot1) ∧
      rest.length = [mondayClass slot1 physics].length - 1 ∧
      deleteTimetableEntry (deleteTimetableEntry sampleDb ravi slot1).2 ravi slot1 =
        (.error 404 "Timetable entry not found", (deleteTimetableEntry sampleDb ravi slot1).2) ∧
      (Teacher.findById (deleteTimetableEntry sampleDb ravi slot1).2 ravi).map
        (fun t => t.timetable) = some rest) ∧
    ((addTimetableEntry hexObjectId sampleDb ravi (mondayBody physics) slot2).1 =
      .json 201 "Timetable entry added successfully"
        [mondayClass slot1 physics, mondayClass slot2 physics]) ∧
    (deleteTimetableEntry
        (deleteTimetableEntry (addTimetableEntry hexObjectId sampleDb ravi (mondayBody physics) slot2).2 ravi
          slot2).2 ravi slot2).1 = .error 404 "Timetable entry not found" :=
  ⟨(deleteTimetableEntry_twice hexObjectId sampleDb ravi
      ⟨ravi, "Ravi", [mondayClass slot1 physics]⟩ (by decide)).1 slot1
      (by decide) ⟨mondayClass slot1 physics, by decide, by decide⟩,
    by decide,
    by
      obtain ⟨_, _, _, _, _, h, _⟩ := (deleteTimetableEntry_twice hexObjectId sampleDb ravi
        ⟨ravi, "Ravi", [mondayClass slot1 physics]⟩ (by decide)).2
        (mondayBody physics) slot2
        [mondayClass slot1 physics, mondayClass slot2 physics]
        (by decide) (by decide)
      rw [h]⟩

/-! ## Ownership of the entries -/

theorem semester_byId_save (db : Db) (doc : Teacher) (i : ObjectId) :
    Semester.byId (save db doc) i = Semester.byId db i := rfl

theorem ownsEntries_save {db : Db} (t doc : Teacher) (hinv : ownsEntries db)
    (ht : t ∈ db.teachers) (hid : doc._id = t._id)
    (hentries : ∀ e ∈ doc.timetable, e ∈ t.timetable ∨
      ∃ s, Semester.byId db e.semester = some s ∧ s.teacher = doc._id) :
    ownsEntries (save db doc) := by
  intro x hx e he
  rw [semester_byId_save]
  rcases mem_saveTeacher hx with hx | hx
  · exact hinv x hx e he
  · subst hx
    rcases hentries e he with h | h
    · rw [hid]; exact hinv t ht e h
    · exact h

theorem addTimetableEntry_semesters (castObjectId : JsValue → Option ObjectId) (db : Db)
    (teacherId : ObjectId) (body : AddBody) (newId : ObjectId) :
    (addTimetableEntry castObjectId db teacherId body newId).2.semesters = db.semesters := by
  rcases addTimetableEntry_cases castObjectId db teacherId body newId with
    ⟨_, h⟩ | ⟨_, _, h⟩ | ⟨_, _, _, h⟩ | ⟨_, _, _, h⟩ | ⟨_, _, _, _, _, _, h⟩ |
    ⟨_, _, _, _, _, _, h⟩ <;>
  first | (rw [h]; done) | (rw [h]; rfl)

theorem deleteTimetableEntry_cases (db : Db) (teacherId entryId : ObjectId) :
    (Teacher.findById db teacherId = none ∧
      deleteTimetableEntry db teacherId entryId = (.error 404 "Teacher not found", db)) ∨
    (∃ t, Teacher.findById db teacherId = some t ∧ timetableId t.timetable entryId = none ∧
      deleteTimetableEntry db teacherId entryId =
        (.error 404 "Timetable entry not found", db)) ∨
    (∃ t entry, Teacher.findById db teacherId = some t ∧
      timetableId t.timetable entryId = some entry ∧
      deleteTimetableEntry db teacherId entryId =
        (.json 200 "Timetable entry deleted successfully" (deleteOne t.timetable entry),
          save db { t with timetable := deleteOne t.timetable entry })) := by
  cases ht : Teacher.findById db teacherId with
  | none =>
    refine Or.inl ⟨rfl, ?_⟩
    unfold deleteTimetableEntry
    simp [ht]
  | some t =>
    cases he : timetableId t.timetable entryId with
    | none => exact Or.inr (Or.inl ⟨t, rfl, he, deleteTimetableEntry_of_missing _ _ _ _ ht he⟩)
    | some entry =>
      exact Or.inr (Or.inr ⟨t, entry, rfl, he, deleteTimetableEntry_of_found _ _ _ _ _ ht he⟩)

theorem deleteTimetableEntry_semesters (db : Db) (teacherId entryId : ObjectId) :
    (deleteTimetableEntry db teacherId entryId).2.semesters = db.semesters := by
  rcases deleteTimetableEntry_cases db teacherId entryId with
    ⟨_, h⟩ | ⟨_, _, _, h⟩ | ⟨_, _, _, _, h⟩ <;> first | (rw [h]; done) | (rw [h]; rfl)

/-- The new entry of a successful add references the semester the handler
looked up. -/
theorem newEntry_semester {castObjectId : JsValue → Option ObjectId} {db : Db}
    {body : AddBody} {s : Semester} (newId : ObjectId)
    (hs : Semester.findById castObjectId db body.semesterId = some (some s)) :
    Semester.byId db (newEntry body s newId).semester = some s :=
  (semester_findById_some hs).2

theorem ownsEntries_add {db : Db} (hinv : ownsEntries db)
    (castObjectId : JsValue → Option ObjectId) (teacherId : ObjectId)
    (body : AddBody) (newId : ObjectId) :
    ownsEntries (addTimetableEntry castObjectId db teacherId body newId).2 := by
  rcases addTimetableEntry_cases castObjectId db teacherId body newId with
    ⟨_, h⟩ | ⟨_, _, h⟩ | ⟨_, _, _, h⟩ | ⟨_, _, _, h⟩ | ⟨_, _, _, _, _, _, h⟩ |
    ⟨t, s, hf, ht, hs, ho, h⟩
  · rw [h]; exact hinv
  · rw [h]; exact hinv
  · rw [h]; exact hinv
  · rw [h]; exact hinv
  · rw [h]; exact hinv
  · rw [h]
    apply ownsEntries_save t (push t (newEntry body s newId)) hinv (teacher_findById_mem ht) rfl
    intro e he
    rcases List.mem_append.1 he with he | he
    · exact Or.inl he
    · right
      rw [List.mem_singleton] at he
      subst he
      refine ⟨s, newEntry_semester newId hs, ?_⟩
      rw [ho]
      exact (teacher_findById_id ht).symm

theorem ownsEntries_delete {db : Db} (hinv : ownsEntries db) (teacherId entryId : ObjectId) :
    ownsEntries (deleteTimetableEntry db teacherId entryId).2 := by
  rcases deleteTimetableEntry_cases db teacherId entryId with
    ⟨_, h⟩ | ⟨_, _, _, h⟩ | ⟨t, entry, ht, _, h⟩
  · rw [h]; exact hinv
  · rw [h]; exact hinv
  · rw [h]
    apply ownsEntries_save t { t with timetable := deleteOne t.timetable entry } hinv
      (teacher_findById_mem ht) rfl
    intro e he
    exact Or.inl (mem_deleteOne.1 he).1

theorem runCalls_invariant (castObjectId : JsValue → Option ObjectId) (init : Db)
    (calls : List Call) (hinit : emptyTimetables init) :
    (runCalls castObjectId init calls).semesters = init.semesters ∧
      ownsEntries (runCalls castObjectId init calls) := by
  have hstart : ownsEntries init := by
    intro t ht e he
    rw [hinit t ht] at he
    cases he
  have key : ∀ (calls : List Call) (db : Db), ownsEntries db →
      (runCalls castObjectId db calls).semesters = db.semesters ∧
        ownsEntries (runCalls castObjectId db calls) := by
    intro calls
    induction calls with
    | nil => intro db h; exact ⟨rfl, h⟩
    | cons c cs ih =>
      intro db h
      cases c with
      | add teacherId body newId =>
        have := ih _ (ownsEntries_add h castObjectId teacherId body newId)
        exact ⟨this.1.trans (addTimetableEntry_semesters castObjectId db teacherId body newId),
          this.2⟩
      | delete teacherId entryId =>
        have := ih _ (ownsEntries_delete h teacherId entryId)
        exact ⟨this.1.trans (deleteTimetableEntry_semesters db teacherId entryId), this.2⟩
  exact key calls init hstart

/-- C6: starting from empty timetables, after any sequence of add and delete
calls the Semester records are the initial ones and every entry in the
timetable of a teacher references a stored semester whose teacher is that
teacher; hence in such a store every successful add by a teacher appends an
entry of a semester owned by that teacher, and every entry a successful
delete by a teacher removes is an entry of a semester owned by that teacher. -/
theorem owner_only_writes (castObjectId : JsValue → Option ObjectId) (init : Db)
    (calls : List Call) (hinit : emptyTimetables init) :
    (runCalls castObjectId init calls).semesters = init.semesters ∧
    (∀ t ∈ (runCalls castObjectId init calls).teachers, ∀ e ∈ t.timetable,
      ∃ s, Semester.byId (runCalls castObjectId init calls) e.semester = some s ∧
        s.teacher = t._id) ∧
    (∀ teacherId body newId added,
      (addTimetableEntry castObjectId (runCalls castObjectId init calls) teacherId body newId).1 =
        .json 201 "Timetable entry added successfully" added →
      ∃ prior e s, Teacher.findById (runCalls castObjectId init calls) teacherId = some prior ∧
        added = prior.timetable ++ [e] ∧
        Semester.byId (runCalls castObjectId init calls) e.semester = some s ∧
        s.teacher = teacherId) ∧
    (∀ teacherId entryId rest,
      (deleteTimetableEntry (runCalls castObjectId init calls) teacherId entryId).1 =
        .json 200 "Timetable entry deleted successfully" rest →
      ∃ prior, Teacher.findById (runCalls castObjectId init calls) teacherId = some prior ∧
        ∀ e ∈ prior.timetable, e ∉ rest →
          e._id = entryId ∧
          ∃ s, Semester.byId (runCalls castObjectId init calls) e.semester = some s ∧
            s.teacher = teacherId) := by
  obtain ⟨hsem, hinv⟩ := runCalls_invariant castObjectId init calls hinit
  refine ⟨hsem, hinv, ?_, ?_⟩
  · intro teacherId body newId added hadd
    rcases addTimetableEntry_cases castObjectId (runCalls castObjectId init calls) teacherId
        body newId with
      ⟨_, h⟩ | ⟨_, _, h⟩ | ⟨_, _, _, h⟩ | ⟨_, _, _, h⟩ | ⟨_, _, _, _, _, _, h⟩ |
      ⟨t, s, hf, ht, hs, ho, h⟩
    · rw [h] at hadd; cases hadd
    · rw [h] at hadd; cases hadd
    · rw [h] at hadd; cases hadd
    · rw [h] at hadd; cases hadd
    · rw [h] at hadd; cases hadd
    · rw [h] at hadd
      refine ⟨t, newEntry body s newId, s, ht, ?_, newEntry_semester newId hs, ho⟩
      have : t.timetable ++ [newEntry body s newId] = added := by simpa using hadd
      exact this.symm
  · intro teacherId entryId rest hdel
    rcases deleteTimetableEntry_cases (runCalls castObjectId init calls) teacherId entryId with
      ⟨_, h⟩ | ⟨_, _, _, h⟩ | ⟨t, entry, ht, hentry, h⟩
    · rw [h] at hdel; cases hdel
    · rw [h] at hdel; cases hdel
    · rw [h] at hdel
      have hrest : deleteOne t.timetable entry = rest := by simpa using hdel
      refine ⟨t, ht, ?_⟩
      intro e he hnot
      constructor
      · by_contra hne
        apply hnot
        rw [← hrest, mem_deleteOne]
        refine ⟨he, ?_⟩
        rw [timetableId_id hentry]
        exact hne
      · obtain ⟨s, hs, ho⟩ := hinv t (teacher_findById_mem ht) e he
        exact ⟨s, hs, by rw [ho]; exact teacher_findById_id ht⟩

/-- C6 witness: the sample calls on the fresh store leave Ravi with one class,
of his own Physics semester. -/
theorem owner_only_writes_witness :
    (runCalls hexObjectId freshDb sampleCalls).teachers =
      [ ⟨asha, "Asha", []⟩, ⟨ravi, "Ravi", [mondayClass slot3 physics]⟩ ] ∧
    ∀ t ∈ (runCalls hexObjectId freshDb sampleCalls).teachers, ∀ e ∈ t.timetable,
      ∃ s, Semester.byId (runCalls hexObjectId freshDb sampleCalls) e.semester = some s ∧
        s.teacher = t._id :=
  ⟨by decide, (owner_only_writes hexObjectId freshDb sampleCalls (by decide)).2.1⟩

/-! ## The student timetable -/

theorem mapRows_populated (db : Db) (clock : Nat → Nat) (semesters : List Semester) :
    ∀ k, (∀ s ∈ semesters, Teacher.findById db s.teacher ≠ none) →
      ∃ rows, mapRows clock k (populateTeacher db semesters) = some rows ∧
        rows.length = semesters.length ∧
        ∀ i (h : i < semesters.length), ∃ t,
          Teacher.findById db semesters[i].teacher = some t ∧
          rows[i]? = some (rowOf semesters[i] t (clock (k + 2 * i)) (clock (k + 2 * i + 1))) := by
  induction semesters with
  | nil =>
    intro k _
    exact ⟨[], rfl, rfl, fun i h => absurd h (Nat.not_lt_zero i)⟩
  | cons sem rest ih =>
    intro k hall
    obtain ⟨rows, hrows, hlen, hrow⟩ := ih (k + 2) (fun s hs => hall s (List.mem_cons_of_mem _ hs))
    cases ht : Teacher.findById db sem.teacher with
    | none => exact absurd ht (hall sem (List.mem_cons_self _ _))
    | some t =>
      refine ⟨rowOf sem t (clock k) (clock (k + 1)) :: rows, ?_, ?_, ?_⟩
      · unfold populateTeacher at hrows ⊢
        simp only [List.map_cons, mapRows, ht, hrows]
        rfl
      · simp [hlen]
      · intro i h
        cases i with
        | zero => exact ⟨t, ht, by simp⟩
        | succ j =>
          have hj : j < rest.length := by simpa using h
          obtain ⟨t2, ht2, hr⟩ := hrow j hj
          refine ⟨t2, by simpa using ht2, ?_⟩
          have e1 : k + 2 * (j + 1) = k + 2 + 2 * j := by ring
          have e2 : k + 2 * (j + 1) + 1 = k + 2 + 2 * j + 1 := by ring
          simp only [List.getElem_cons_succ, List.getElem?_cons_succ, e1, e2]
          exact hr

/-- C10 (as stated, refuted): student `u3` is enrolled in the Chemistry semester, whose
teacher reference resolves to no stored teacher; the handler raises a
`TypeError` on the teacher name and does not answer 200. -/
theorem getStudentTimetable_dangling_teacher :
    Semester.find danglingDb "u3" =
      [⟨chemistry, "Chemistry", "CH101", 2, nobody, ["u3"]⟩] ∧
    Teacher.findById danglingDb nobody = none ∧
    getStudentTimetable danglingDb "u3" tickingClock = .typeError ∧
    (getStudentTimetable danglingDb "u3" tickingClock).status ≠ some 200 := by
  decide

/-- C10 (amended): for every store, student and clock the handler never takes
its 404 branch; and when every semester enrolling the student references a
stored teacher, it answers 200 with one row per semester whose students
contain the student (none when there is none), in lookup order, each row
carrying the id, subjectName as subject, subjectCode, the name of the owning
teacher, the clock read for startTime and the next clock read plus one hour
for endTime. -/
theorem getStudentTimetable_rows (db : Db) (studentId : ObjectId) (clock : Nat → Nat) :
    (∀ message, getStudentTimetable db studentId clock ≠ .error 404 message) ∧
    (∀ s, s ∈ Semester.find db studentId ↔ s ∈ db.semesters ∧ studentId ∈ s.students) ∧
    ((∀ s ∈ db.semesters, studentId ∈ s.students → Teacher.findById db s.teacher ≠ none) →
      ∃ rows,
        getStudentTimetable db studentId clock =
          .json 200 "Student timetable fetched successfully" rows ∧
        rows.length = (Semester.find db studentId).length ∧
        ∀ i (h : i < (Semester.find db studentId).length), ∃ t,
          Teacher.findById db (Semester.find db studentId)[i].teacher = some t ∧
          rows[i]? = some
            { id := (Semester.find db studentId)[i]._id
              subject := (Semester.find db studentId)[i].subjectName
              subjectCode := (Semester.find db studentId)[i].subjectCode
              teacher := t.name
              startTime := clock (2 * i)
              endTime := clock (2 * i + 1) + 3600000 }) := by
  have hmem : ∀ s, s ∈ Semester.find db studentId ↔
      s ∈ db.semesters ∧ studentId ∈ s.students := by
    intro s
    simp [Semester.find, List.mem_filter]
  refine ⟨?_, hmem, ?_⟩
  · intro message
    unfold getStudentTimetable
    simp only [arrayIsFalsy]
    cases mapRows clock 0 (populateTeacher db (Semester.find db studentId)) with
    | none => simp
    | some rows => simp
  · intro hall
    obtain ⟨rows, hrows, hlen, hrow⟩ := mapRows_populated db clock (Semester.find db studentId) 0
      (fun s hs => hall s ((hmem s).1 hs).1 ((hmem s).1 hs).2)
    refine ⟨rows, ?_, hlen, ?_⟩
    · unfold getStudentTimetable
      simp [arrayIsFalsy, hrows]
    · intro i h
      obtain ⟨t, ht, hr⟩ := hrow i h
      refine ⟨t, ht, ?_⟩
      simpa [rowOf] using hr

/-- C10 witness: student `u1` is enrolled in both semesters of the sample
store and gets two rows; student `u7` is enrolled nowhere and gets none. -/
theorem getStudentTimetable_rows_witness :
    getStudentTimetable sampleDb "u1" tickingClock =
      .json 200 "Student timetable fetched successfully"
        [ ⟨maths, "Maths", "MA101", "Asha", 1000, 3601001⟩,
          ⟨physics, "Physics", "PH101", "Ravi", 1002, 3601003⟩ ] ∧
    getStudentTimetable sampleDb "u7" tickingClock =
      .json 200 "Student timetable fetched successfully" [] ∧
    ∃ rows,
      getStudentTimetable sampleDb "u1" tickingClock =
        .json 200 "Student timetable fetched successfully" rows ∧
      rows.length = (Semester.find sampleDb "u1").length ∧
      ∀ i (h : i < (Semester.find sampleDb "u1").length), ∃ t,
        Teacher.findById sampleDb (Semester.find sampleDb "u1")[i].teacher = some t ∧
        rows[i]? = some
          { id := (Semester.find sampleDb "u1")[i]._id
            subject := (Semester.find sampleDb "u1")[i].subjectName
            subjectCode := (Semester.find sampleDb "u1")[i].subjectCode
            teacher := t.name
            startTime := tickingClock (2 * i)
            endTime := tickingClock (2 * i + 1) + 3600000 } :=
  ⟨by decide, by decide,
    (getStudentTimetable_rows sampleDb "u1" tickingClock).2.2 (by decide)⟩

end Timetable
